import Mathlib

/-
Verification of the python-evonic client library (pyevonic).

Shallow embedding of `src/pyevonic/models.py` and `src/pyevonic/evonic.py`:
wire values are modelled by `JVal`, JSON-object payloads by association
lists, Python exceptions by the `PyErr` inductive, and every fallible
Python function by a Lean function into `Except PyErr _`.
-/

/-- A JSON / Python wire value as it appears in payloads handled by this
library: null (Python `None`), booleans, integers, strings, and lists of
strings (module lists and effect lists). -/
inductive JVal where
  | nullv
  | boolv (b : Bool)
  | intv (n : Int)
  | strv (s : String)
  | listv (xs : List String)
deriving DecidableEq

/-- A decoded JSON object: a key-value mapping, modelled as an association
list with lookup on the first matching key (Python dicts have unique keys). -/
abbrev Payload := List (String × JVal)

deriving instance DecidableEq for Except

/-- Python `data.get(key, default)` on a payload dict. -/
def dictGetD (data : Payload) (k : String) (v : JVal) : JVal :=
  match data.lookup k with
  | some x => x
  | none => v

/-- Python exceptions raised by the library, one constructor per distinct
exception class / call shape appearing in the source.  The `Evonic*`
classes come from `pyevonic.exceptions` (imported in `evonic.py`); the
rest are builtin Python exceptions that the source can raise implicitly. -/
inductive PyErr where
  | evonicError (msg : String)
  | evonicErrorJson (body : Payload)
  | evonicErrorStatus (status : Nat) (message : String)
  | evonicUnsupportedFeature (msg : String)
  | evonicConnectionError (msg : String)
  | evonicConnectionClosed (msg : String)
  | evonicConnectionTimeout (msg : String)
  | pyException (msg : String)
  | attributeError (msg : String)
  | valueError (msg : String)
  | typeError (msg : String)
  | indexError
  | unboundLocalError (name : String)
  | connectionReset (msg : String)
deriving DecidableEq

/-- Digits of a decimal literal to its numeric value; `none` when the
character list is empty or contains a non-digit. -/
def digitsToNat (cs : List Char) : Option Nat :=
  if cs.isEmpty then none
  else if cs.all (fun c => c.isDigit) then
    some (cs.foldl (fun a c => a * 10 + (c.toNat - 48)) 0)
  else none

/-- Whitespace characters that Python `int(...)` strips from a string. -/
def isPySpace (c : Char) : Bool :=
  c = ' ' || c = '\t' || c = '\n' || c = '\r'

/-- Strip leading and trailing whitespace from a character list. -/
def trimChars (cs : List Char) : List Char :=
  (((cs.dropWhile isPySpace).reverse).dropWhile isPySpace).reverse

/-- Python `int(s)` for a string argument: optional surrounding whitespace,
optional sign, then decimal digits; `none` models `ValueError`. -/
def parsePyInt (s : String) : Option Int :=
  match trimChars s.data with
  | [] => none
  | c :: rest =>
    if c = '-' then (digitsToNat rest).map (fun n => -(n : Int))
    else if c = '+' then (digitsToNat rest).map (fun n => (n : Int))
    else (digitsToNat (c :: rest)).map (fun n => (n : Int))

/-- Python `int(s)` raising `ValueError` on a non-numeric string. -/
def pyIntOfString (s : String) : Except PyErr Int :=
  match parsePyInt s with
  | some n => .ok n
  | none => .error (.valueError s)

/-- `models.to_int`: returns the value unchanged when it is an `int`
(Python `bool` is an `int` instance, `True` being `1`), parses strings
with `int(...)` (which raises `ValueError` on non-numeric strings), and
returns `0` for every other type. -/
def to_int : JVal → Except PyErr Int
  | .intv n => .ok n
  | .boolv b => .ok (if b then 1 else 0)
  | .strv s => pyIntOfString s
  | .nullv => .ok 0
  | .listv _ => .ok 0

/-- `models.Network` dataclass. -/
structure Network where
  ip : JVal
  subnet : JVal
  ssidAP : JVal
  signal_strength : JVal
deriving DecidableEq

/-- `Network.from_dict`. -/
def Network.from_dict (data : Payload) : Network :=
  { ip := dictGetD data ("ip") .nullv
    subnet := dictGetD data ("subnet") .nullv
    ssidAP := dictGetD data ("ssidAP") .nullv
    signal_strength := dictGetD data ("dbm") .nullv }

/-- `Network.update_from_dict`. -/
def Network.update_from_dict (n : Network) (data : Payload) : Network :=
  { ip := dictGetD data ("ip") n.ip
    subnet := dictGetD data ("subnet") n.subnet
    ssidAP := dictGetD data ("ssidAP") n.ssidAP
    signal_strength := dictGetD data ("dbm") n.signal_strength }

/-- `models.Info` dataclass.  Note: it has no `fahrenheit` field (that
field lives on `Climate`). -/
structure Info where
  on_ : JVal
  ssdp : JVal
  ssidAP : JVal
  configs : JVal
  product : JVal
  buildData : JVal
  last_ping : JVal
  modules : JVal
deriving DecidableEq

/-- `Info.from_dict`. -/
def Info.from_dict (data : Payload) : Info :=
  { on_ := dictGetD data ("Fire") .nullv
    ssdp := dictGetD data ("SSDP") .nullv
    ssidAP := dictGetD data ("ssidAP") .nullv
    configs := dictGetD data ("configs") .nullv
    product := dictGetD data ("product") .nullv
    buildData := dictGetD data ("buildData") .nullv
    last_ping := dictGetD data ("time") .nullv
    modules := dictGetD data ("module") .nullv }

/-- `Info.update_from_dict`. -/
def Info.update_from_dict (i : Info) (data : Payload) : Info :=
  { on_ := dictGetD data ("Fire") i.on_
    ssdp := dictGetD data ("SSDP") i.ssdp
    ssidAP := dictGetD data ("ssidAP") i.ssidAP
    configs := dictGetD data ("configs") i.configs
    product := dictGetD data ("product") i.product
    buildData := dictGetD data ("buildData") i.buildData
    last_ping := dictGetD data ("time") i.last_ping
    modules := dictGetD data ("module") i.modules }

/-- Python attribute access `info.fahrenheit`: the `Info` dataclass has no
such field, so this access raises `AttributeError` (used verbatim by
`Evonic.set_temperature` in the source, line 289 of `evonic.py`). -/
def Info.getattr_fahrenheit (_ : Info) : Except PyErr JVal :=
  .error (.attributeError ("Info object has no attribute fahrenheit"))

/-- `models.Climate` dataclass.  The two temperature fields are produced
by `to_int`, hence always integers. -/
structure Climate where
  current_temp : Int
  target_temp : Int
  heating : JVal
  fahrenheit : JVal
deriving DecidableEq

/-- `Climate.from_dict`. -/
def Climate.from_dict (data : Payload) : Except PyErr Climate := do
  let current_temp ← to_int (dictGetD data ("temperature") .nullv)
  let target_temp ← to_int (dictGetD data ("templevel") .nullv)
  return { current_temp := current_temp
           target_temp := target_temp
           heating := dictGetD data ("Heater") .nullv
           fahrenheit := dictGetD data ("fahrenheit") .nullv }

/-- `Climate.update_from_dict`: `to_int(data.get(key, current))` — the
current (integer) field value is the lookup default. -/
def Climate.update_from_dict (c : Climate) (data : Payload) : Except PyErr Climate := do
  let current_temp ← to_int (dictGetD data ("temperature") (.intv c.current_temp))
  let target_temp ← to_int (dictGetD data ("templevel") (.intv c.target_temp))
  return { current_temp := current_temp
           target_temp := target_temp
           heating := dictGetD data ("Heater") c.heating
           fahrenheit := dictGetD data ("fahrenheit") c.fahrenheit }

/-- `models.Effects` dataclass. -/
structure Effects where
  available_effects : JVal
deriving DecidableEq

/-- `Effects.from_dict`. -/
def Effects.from_dict (data : Payload) : Effects :=
  { available_effects := dictGetD data ("available_effects") .nullv }

/-- `Effects.update_from_dict`. -/
def Effects.update_from_dict (e : Effects) (data : Payload) : Effects :=
  { available_effects := dictGetD data ("available_effects") e.available_effects }

/-- `models.Light` dataclass.  The four numeric fields are produced by
`to_int`, hence always integers. -/
structure Light where
  effect : JVal
  feature_light : JVal
  flame_brightness : Int
  flame_speed : Int
  coal_brightness : Int
  coal_speed : Int
deriving DecidableEq

/-- `Light.from_dict`. -/
def Light.from_dict (data : Payload) : Except PyErr Light := do
  let flame_brightness ← to_int (dictGetD data ("brightnessRGB0") .nullv)
  let flame_speed ← to_int (dictGetD data ("speedRGB0") .nullv)
  let coal_brightness ← to_int (dictGetD data ("brightnessRGB1") .nullv)
  let coal_speed ← to_int (dictGetD data ("speedRGB1") .nullv)
  return { effect := dictGetD data ("effect") .nullv
           feature_light := dictGetD data ("pinout3") .nullv
           flame_brightness := flame_brightness
           flame_speed := flame_speed
           coal_brightness := coal_brightness
           coal_speed := coal_speed }

/-- `Light.update_from_dict`. -/
def Light.update_from_dict (l : Light) (data : Payload) : Except PyErr Light := do
  let flame_brightness ← to_int (dictGetD data ("brightnessRGB0") (.intv l.flame_brightness))
  let flame_speed ← to_int (dictGetD data ("speedRGB0") (.intv l.flame_speed))
  let coal_brightness ← to_int (dictGetD data ("brightnessRGB1") (.intv l.coal_brightness))
  let coal_speed ← to_int (dictGetD data ("speedRGB1") (.intv l.coal_speed))
  return { effect := dictGetD data ("effect") l.effect
           feature_light := dictGetD data ("pinout3") l.feature_light
           flame_brightness := flame_brightness
           flame_speed := flame_speed
           coal_brightness := coal_brightness
           coal_speed := coal_speed }

/-- `models.Device`. -/
structure Device where
  info : Info
  climate : Climate
  network : Network
  light : Light
  effects : Effects
deriving DecidableEq

/-- `Device.__init__(data)`: builds every sub-record from the same payload
(in source order: info, climate, network, light, effects — so a climate
coercion failure is raised before light is built). -/
def Device.fromPayload (data : Payload) : Except PyErr Device := do
  let info := Info.from_dict data
  let climate ← Climate.from_dict data
  let network := Network.from_dict data
  let light ← Light.from_dict data
  let effects := Effects.from_dict data
  return { info := info, climate := climate, network := network
           light := light, effects := effects }

/-- `Device.update_from_dict`. -/
def Device.update_from_dict (d : Device) (data : Payload) : Except PyErr Device := do
  let info := d.info.update_from_dict data
  let climate ← d.climate.update_from_dict data
  let network := d.network.update_from_dict data
  let light ← d.light.update_from_dict data
  let effects := d.effects.update_from_dict data
  return { info := info, climate := climate, network := network
           light := light, effects := effects }


/-- An `aiohttp.ClientWebSocketResponse` handle, reduced to the one bit of
observable state the library reads: its `closed` flag. -/
structure WsClient where
  closed : Bool
deriving DecidableEq

/-- An `aiohttp.ClientSession`, reduced to whether it has been closed. -/
structure Session where
  closed : Bool
deriving DecidableEq

/-- The `Evonic` dataclass state: optional HTTP session, the
`_close_session` ownership flag (initially `False`), the optional
WebSocket handle `_client`, and the optional `_device` snapshot. -/
structure Evonic where
  session : Option Session
  close_session : Bool
  client : Option WsClient
  device : Option Device
deriving DecidableEq

/-- The `Evonic.connected` property: a socket handle exists and is not in
a closed state. -/
def Evonic.connected (e : Evonic) : Bool :=
  match e.client with
  | some c => !c.closed
  | none => false

/-- `ClientWebSocketResponse.send_str`: delivers the text frame when the
socket is open, raises `ConnectionResetError` when it is closed.  The
returned string is the frame that went on the wire. -/
def WsClient.send_str (c : WsClient) (s : String) : Except PyErr String :=
  if c.closed then .error (.connectionReset ("Cannot write to closing transport"))
  else .ok s

/-- The voice-command envelope built by `__send_voice`, literally
`f'\x7b"voice":"<cmd>"\x7d'`. -/
def mkVoiceEnvelope (cmd : String) : String :=
  ("\x7b\x22voice\x22:\x22") ++ cmd ++ ("\x22\x7d")

/-- The raw-command envelope built by `__send_cmd`, literally
`f'\x7b"cmd":"<cmd>"\x7d'`. -/
def mkCmdEnvelope (cmd : String) : String :=
  ("\x7b\x22cmd\x22:\x22") ++ cmd ++ ("\x22\x7d")

/-- `Evonic.__send_voice`: raises a plain `Exception("Connect first")`
when `_client is None`, otherwise sends the voice envelope. -/
def Evonic.send_voice (e : Evonic) (cmd : String) : Except PyErr String :=
  match e.client with
  | none => .error (.pyException ("Connect first"))
  | some c => c.send_str (mkVoiceEnvelope cmd)

/-- `Evonic.__send_cmd`: performs NO connection check; when `_client is
None` the attribute access `self._client.send_str` raises
`AttributeError`. -/
def Evonic.send_cmd (e : Evonic) (cmd : String) : Except PyErr String :=
  match e.client with
  | none => .error (.attributeError ("NoneType object has no attribute send_str"))
  | some c => c.send_str (mkCmdEnvelope cmd)

/-- Does `xs` start with `needle`? (For Python substring membership.) -/
def leadMatch : List Char → List Char → Bool
  | [], _ => true
  | _ :: _, [] => false
  | a :: as, b :: bs => a == b && leadMatch as bs

/-- Does `hay` contain `needle` as a contiguous run? -/
def containsRun (needle : List Char) : List Char → Bool
  | [] => needle.isEmpty
  | c :: rest => leadMatch needle (c :: rest) || containsRun needle rest

/-- Python substring membership `needle in hay` on strings. -/
def strContains (hay needle : String) : Bool :=
  containsRun needle.data hay.data

/-- Python membership `x in y` for a string `x` and a wire value `y`:
list membership for lists, substring membership for strings, and a
`TypeError` for non-iterable values (None, bool, int). -/
def pyIn (x : String) (y : JVal) : Except PyErr Bool :=
  match y with
  | .listv xs => .ok (xs.contains x)
  | .strv s => .ok (strContains s x)
  | _ => .error (.typeError ("argument is not iterable"))

/-- Python `isinstance(v, int)` together with the integer value:
`bool` is an `int` subclass (`True` is `1`), everything else is not an
`int`. -/
def pyIsInstanceInt : JVal → Option Int
  | .intv n => some n
  | .boolv b => some (if b then 1 else 0)
  | _ => none

/-- Python `s[-1]`: the last character, `IndexError` on an empty string. -/
def pyLastChar (s : String) : Except PyErr Char :=
  match s.data.getLast? with
  | some c => .ok c
  | none => .error .indexError

/-- `Evonic.light_power`: validates the command token, maps it to a voice
token, and sends it via `__send_voice`. -/
def Evonic.light_power (e : Evonic) (cmd : String) : Except PyErr String :=
  if !([("on"), ("off"), ("toggle")].contains cmd) then
    .error (.evonicError ("Command not valid. Must be one of on, off or toggle"))
  else
    let voice_command :=
      if cmd == ("off") then ("Fire_OFF")
      else if cmd == ("on") then ("Fire_ON")
      else ("Fire_ON/OFF")
    e.send_voice voice_command

/-- `Evonic.set_effect`: the effect must be a member of
`self._device.effects.available_effects`; accessing `_device` when it is
`None` raises `AttributeError`. -/
def Evonic.set_effect (e : Evonic) (effect : String) : Except PyErr String :=
  match e.device with
  | none => .error (.attributeError ("NoneType object has no attribute effects"))
  | some d =>
    match pyIn effect d.effects.available_effects with
    | .error err => .error err
    | .ok b =>
      if !b then .error (.evonicUnsupportedFeature ("Not a valid effect for this device"))
      else e.send_voice effect

/-- `Evonic.toggle_feature_light`: requires `"light_box"` in
`self._device.info.modules`. -/
def Evonic.toggle_feature_light (e : Evonic) : Except PyErr String :=
  match e.device with
  | none => .error (.attributeError ("NoneType object has no attribute info"))
  | some d =>
    match pyIn ("light_box") d.info.modules with
    | .error err => .error err
    | .ok b =>
      if !b then .error (.evonicUnsupportedFeature ("Feature Light is not supported on this device"))
      else e.send_voice ("Light_box")

/-- `Evonic.set_light_brightness`: zone must be in modules, value must be
an `int`, and the range test is `brightness not in range(-1, 256)` — so
every integer in `[-1, 255]` is accepted.  On acceptance sends
`rgb set <last char of rgb_id> - - <brightness> -`. -/
def Evonic.set_light_brightness (e : Evonic) (rgb_id : String) (brightness : JVal) :
    Except PyErr String :=
  match e.device with
  | none => .error (.attributeError ("NoneType object has no attribute info"))
  | some d =>
    match pyIn rgb_id d.info.modules with
    | .error err => .error err
    | .ok m =>
      if !m then .error (.evonicUnsupportedFeature (rgb_id ++ (" is not supported on this device")))
      else
        match pyIsInstanceInt brightness with
        | none => .error (.evonicError ("speed must be an Integer"))
        | some b =>
          if !(decide (-1 ≤ b) && decide (b ≤ 255)) then
            .error (.evonicError (toString b ++ (" is not a valid value. Must be between 0 - 255")))
          else
            match pyLastChar rgb_id with
            | .error err => .error err
            | .ok zc =>
              e.send_cmd (("rgb set ") ++ String.singleton zc ++ (" - - ") ++ toString b ++ (" -"))

/-- `Evonic.set_animation_speed`: same validation as brightness; the
range test is `speed not in range(-1, 256)`.  On acceptance sends
`rgb set <last char of rgb_id> - <speed> - -`. -/
def Evonic.set_animation_speed (e : Evonic) (rgb_id : String) (speed : JVal) :
    Except PyErr String :=
  match e.device with
  | none => .error (.attributeError ("NoneType object has no attribute info"))
  | some d =>
    match pyIn rgb_id d.info.modules with
    | .error err => .error err
    | .ok m =>
      if !m then .error (.evonicUnsupportedFeature (rgb_id ++ (" is not a support RGB ID on this device")))
      else
        match pyIsInstanceInt speed with
        | none => .error (.evonicError ("speed must be an Integer"))
        | some v =>
          if !(decide (-1 ≤ v) && decide (v ≤ 255)) then
            .error (.evonicError (toString v ++ (" is not a valid value. Must be between 0 - 255")))
          else
            match pyLastChar rgb_id with
            | .error err => .error err
            | .ok zc =>
              e.send_cmd (("rgb set ") ++ String.singleton zc ++ (" - ") ++ toString v ++ (" - -"))

/-- Python truthiness of a wire value (for `if self._device.info.fahrenheit:`). -/
def truthy : JVal → Bool
  | .nullv => false
  | .boolv b => b
  | .intv n => !(n == 0)
  | .strv s => !(s == (""))
  | .listv xs => !xs.isEmpty

/-- `Evonic.set_temperature`: requires `"temperature"` in modules and an
`int` value; then reads `self._device.info.fahrenheit` — an attribute the
`Info` dataclass does not have, so the access raises `AttributeError`
before any range check.  The (unreachable) range tests are
`temp not in range(49, 91)` and `temp not in range(10, 33)`. -/
def Evonic.set_temperature (e : Evonic) (temp : JVal) : Except PyErr String :=
  match e.device with
  | none => .error (.attributeError ("NoneType object has no attribute info"))
  | some d =>
    match pyIn ("temperature") d.info.modules with
    | .error err => .error err
    | .ok m =>
      if !m then .error (.evonicUnsupportedFeature ("Temperature Control is not supported on this device"))
      else
        match pyIsInstanceInt temp with
        | none => .error (.evonicError ("temp must be an Integer"))
        | some t =>
          match Info.getattr_fahrenheit d.info with
          | .error err => .error err
          | .ok fh =>
            if truthy fh then
              if !(decide (49 ≤ t) && decide (t ≤ 90)) then
                .error (.evonicError (toString t ++ (" is not a valid value. Must be between 50 - 90")))
              else e.send_cmd (("templevel ") ++ toString t)
            else
              if !(decide (10 ≤ t) && decide (t ≤ 32)) then
                .error (.evonicError (toString t ++ (" is not a valid value. Must be between 11 - 32")))
              else e.send_cmd (("templevel ") ++ toString t)

/-- The 13 default effects of `__available_effects`. -/
def default_effects_base : List String :=
  [("Vero"), ("Ignite"), ("Breathe"), ("Spectrum"), ("Embers"), ("Odyssey"),
   ("Aurora"), ("Red"), ("Orange"), ("Green"), ("Blue"), ("Violet"), ("White")]

/-- Model codes that prepend `"Eos"` to the default list. -/
def eos_configs : List String :=
  [("1800"), ("ds1030"), ("hal800"), ("hal1030"), ("hal1500"), ("hal2400"),
   ("halev4"), ("halev8"), ("irpanel"), ("v630"), ("v730"), ("v1030")]

/-- Model codes of the ilusion family. -/
def ilusion_configs : List String :=
  [("ilusion2"), ("alisio1150"), ("alisio1550"), ("alisio1850"), ("alisio850")]

/-- Effects of the ilusion family. -/
def ilusion_effects : List String :=
  [("Ilusion"), ("Aurora"), ("Patriot"), ("Verona"), ("Charm"), ("Viva"),
   ("Cocktail"), ("Campfire")]

/-- Model codes of the evoflame family. -/
def evoflame_configs : List String :=
  [("alente"), ("e1030"), ("e1250"), ("e1500"), ("e1800"), ("e2400"),
   ("e500"), ("e800")]

/-- Effects of the evoflame family. -/
def evoflame_effects : List String := [("Evoflame"), ("Party")]

/-- Model codes of the slimline family. -/
def slimline_configs : List String :=
  [("sl600"), ("sl700"), ("sl1000"), ("sl1250"), ("sl1500")]

/-- Effects of the slimline family. -/
def slimline_effects : List String := [("Ignite"), ("Fiesta")]

/-- Model codes of the video family. -/
def video_configs : List String := [("video")]

/-- Effects of the video family. -/
def video_effects : List String := [("Low"), ("Medium"), ("High")]

/-- Python `configs in [...]` where the list holds strings: true exactly
when `configs` is a string equal to a member. -/
def pyInStrList (v : JVal) (l : List String) : Bool :=
  match v with
  | .strv s => l.contains s
  | _ => false

/-- The pure core of `Evonic.__available_effects`: the sequence of
conditional rebindings of `default_effects` performed on the
configuration code (each later family test, when true, replaces whatever
an earlier one produced). -/
def available_effects_of (configs : JVal) : List String :=
  let default_effects := default_effects_base
  let default_effects :=
    if pyInStrList configs eos_configs then ("Eos") :: default_effects
    else default_effects
  let default_effects :=
    if pyInStrList configs ilusion_configs then ilusion_effects
    else default_effects
  let default_effects :=
    if pyInStrList configs evoflame_configs && !(configs == .strv ("1800")) then evoflame_effects
    else default_effects
  let default_effects :=
    if pyInStrList configs slimline_configs then slimline_effects
    else default_effects
  let default_effects :=
    if pyInStrList configs video_configs then video_effects
    else default_effects
  default_effects

/-- The effects catalog as the specification words it: family rules
checked in declared order, the FIRST matching rule winning (extended
default, ilusion, evoflame, slimline, video), else the default list. -/
def specEffectsCatalog (configs : JVal) : List String :=
  if pyInStrList configs eos_configs then ("Eos") :: default_effects_base
  else if pyInStrList configs ilusion_configs then ilusion_effects
  else if pyInStrList configs evoflame_configs then evoflame_effects
  else if pyInStrList configs slimline_configs then slimline_effects
  else if pyInStrList configs video_configs then video_effects
  else default_effects_base

/-- `Evonic.__available_effects`: raises when `_device is None`, else
computes the catalog from `info.configs` and merges it into the snapshot
under the `"available_effects"` key. -/
def Evonic.available_effects (e : Evonic) : Except PyErr Evonic :=
  match e.device with
  | none => .error (.pyException ("No device initialised"))
  | some d =>
    match d.update_from_dict
        [(("available_effects"), JVal.listv (available_effects_of d.info.configs))] with
    | .error err => .error err
    | .ok d1 => .ok { e with device := some d1 }

/-- The observable parts of an `aiohttp` HTTP response: status code,
`Content-Type` header, the JSON decoding of the body when the body is a
valid JSON object (`none` otherwise), and the body text. -/
structure HttpResponse where
  status : Nat
  content_type : String
  json_body : Option Payload
  text_body : String
deriving DecidableEq

/-- What a successful `Evonic.request` evaluates to: the decoded JSON
body, or the raw body text. -/
inductive ReqData where
  | jsonData (p : Payload)
  | textData (s : String)
deriving DecidableEq

/-- `Evonic.request` (response-handling path; timeout and network errors
are separate `except` arms orthogonal to the claims).  Mirrors the source
exactly, including the mis-indented `else` that reassigns
`response_data = await response.text()` whenever a JSON success response
is NOT the bootstrap `GET /modules.json`, and the fact that a non-JSON
success response leaves `response_data` unassigned so that the final
`return response_data` raises `UnboundLocalError`. -/
def Evonic.request (e : Evonic) (uri method : String) (_data : Option Payload)
    (resp : HttpResponse) : Except PyErr (ReqData × Evonic) :=
  let e := if e.session = none then { e with session := some ⟨false⟩, close_session := true } else e
  if resp.status / 100 == 4 || resp.status / 100 == 5 then
    if resp.content_type == ("application/json") then
      match resp.json_body with
      | some j => .error (.evonicErrorJson j)
      | none => .error (.valueError resp.text_body)
    else .error (.evonicErrorStatus resp.status resp.text_body)
  else if strContains resp.content_type ("application/json") then
    match resp.json_body with
    | none => .error (.valueError resp.text_body)
    | some j =>
      if method == ("GET") && uri == ("/modules.json") then
        match (match e.device with
               | none => Device.fromPayload j
               | some d => Except.ok d) with
        | .error err => .error err
        | .ok d0 =>
          match d0.update_from_dict j with
          | .error err => .error err
          | .ok d1 => .ok (.jsonData j, { e with device := some d1 })
      else .ok (.textData resp.text_body, e)
  else .error (.unboundLocalError ("response_data"))

/-- `Evonic.connect` (success path of the two awaited I/O operations,
parameterised by the bootstrap HTTP response): no-op when already
connected; creates an HTTP session when none was injected (WITHOUT
setting `_close_session`); bootstraps the device via
`request("/modules.json", "GET", None)`; computes the effects catalog;
then opens the WebSocket. -/
def Evonic.connect (e : Evonic) (resp : HttpResponse) : Except PyErr Evonic :=
  if e.connected then .ok e
  else
    let e := if e.session = none then { e with session := some ⟨false⟩ } else e
    match e.request ("/modules.json") ("GET") none resp with
    | .error err => .error err
    | .ok (_, e1) =>
      match e1.available_effects with
      | .error err => .error err
      | .ok e2 => .ok { e2 with client := some ⟨false⟩ }

/-- `Evonic.disconnect`: no-op when there is no handle or it is already
closed; otherwise closes the WebSocket handle. -/
def Evonic.disconnect (e : Evonic) : Evonic :=
  match e.client with
  | none => e
  | some c => if c.closed then e else { e with client := some ⟨true⟩ }

/-- `Evonic.close`: disconnects, then closes the HTTP session only when
one exists AND `_close_session` is set. -/
def Evonic.close (e : Evonic) : Evonic :=
  let e := e.disconnect
  match e.session with
  | some _ => if e.close_session then { e with session := some ⟨true⟩ } else e
  | none => e

/-- An inbound WebSocket frame, one constructor per `aiohttp.WSMsgType`
the listen loop distinguishes.  A text frame carries its JSON-decoded
payload. -/
inductive WsMsg where
  | errorMsg
  | textMsg (body : Payload)
  | binaryMsg
  | pingMsg
  | pongMsg
  | closeMsg
  | closedMsg
  | closingMsg
deriving DecidableEq

/-- The possible fates of the `listen` receive loop on a finite trace of
inbound frames: the `while` condition went false (normal return), the
trace ran out with the loop still blocked in `receive()`, or an exception
was raised. -/
inductive ListenResult where
  | finished (device : Option Device)
  | awaitingFrames (device : Option Device)
  | raised (e : PyErr)
deriving DecidableEq

/-- The body of a text frame merged into the snapshot: `Device(data)`
when no snapshot exists yet, then `update_from_dict(data)` (after which
the caller-supplied callback is invoked with the snapshot). -/
def deviceStep (device : Option Device) (body : Payload) : Except PyErr Device :=
  match (match device with
         | none => Device.fromPayload body
         | some d => Except.ok d) with
  | .error err => .error err
  | .ok d0 => d0.update_from_dict body

/-- The `while not self._client.closed` receive loop of `Evonic.listen`,
run over a finite trace of inbound frames. -/
def listen_loop (c : WsClient) (device : Option Device) : List WsMsg → ListenResult
  | [] => if c.closed then .finished device else .awaitingFrames device
  | m :: rest =>
    if c.closed then .finished device
    else
      match m with
      | .errorMsg => .raised (.evonicConnectionError ("websocket exception"))
      | .textMsg body =>
        match deviceStep device body with
        | .error err => .raised err
        | .ok d1 => listen_loop c (some d1) rest
      | .closeMsg => .raised (.evonicConnectionClosed ("Connection to the WLED WebSocket has been closed"))
      | .closedMsg => .raised (.evonicConnectionClosed ("Connection to the WLED WebSocket has been closed"))
      | .closingMsg => .raised (.evonicConnectionClosed ("Connection to the WLED WebSocket has been closed"))
      | .binaryMsg => listen_loop c device rest
      | .pingMsg => listen_loop c device rest
      | .pongMsg => listen_loop c device rest

/-- `Evonic.listen`: raises `EvonicError` when `_client` is `None` (the
only precondition check), otherwise enters the receive loop. -/
def Evonic.listen (e : Evonic) (frames : List WsMsg) : ListenResult :=
  match e.client with
  | none => .raised (.evonicError ("Not connected to a WLED WebSocket"))
  | some c => listen_loop c e.device frames

/-- A device fixture: modules `["temperature", "rgb0", "light_box"]`,
Celsius unit (`climate.fahrenheit = false`), configs `"v630"`. -/
def devFix : Device :=
  { info := { on_ := .nullv, ssdp := .nullv, ssidAP := .nullv, configs := .strv ("v630")
              product := .nullv, buildData := .nullv, last_ping := .nullv
              modules := .listv [("temperature"), ("rgb0"), ("light_box")] }
    climate := { current_temp := 0, target_temp := 0, heating := .nullv
                 fahrenheit := .boolv false }
    network := { ip := .nullv, subnet := .nullv, ssidAP := .nullv, signal_strength := .nullv }
    light := { effect := .nullv, feature_light := .nullv, flame_brightness := 0
               flame_speed := 0, coal_brightness := 0, coal_speed := 0 }
    effects := { available_effects := .listv default_effects_base } }

/-- A client fixture holding `devFix` with an open WebSocket. -/
def evOpen : Evonic :=
  { session := some ⟨false⟩, close_session := false, client := some ⟨false⟩
    device := some devFix }

/-- A client fixture holding `devFix` with NO WebSocket handle. -/
def evNoClient : Evonic :=
  { session := none, close_session := false, client := none, device := some devFix }

/-- A client fixture with a session but no device and no WebSocket. -/
def evSess : Evonic :=
  { session := some ⟨false⟩, close_session := false, client := none, device := none }

/-- A freshly constructed client: `Evonic(host)` with nothing injected. -/
def freshEv : Evonic :=
  { session := none, close_session := false, client := none, device := none }

/-- A successful bootstrap response for `GET /modules.json` with an empty
JSON object body. -/
def bootResp : HttpResponse :=
  { status := 200, content_type := ("application/json"), json_body := some [], text_body := ("") }

/-- The device snapshot produced by bootstrapping from an empty payload
and computing the effects catalog. -/
def dev0 : Device :=
  { info := { on_ := .nullv, ssdp := .nullv, ssidAP := .nullv, configs := .nullv
              product := .nullv, buildData := .nullv, last_ping := .nullv, modules := .nullv }
    climate := { current_temp := 0, target_temp := 0, heating := .nullv, fahrenheit := .nullv }
    network := { ip := .nullv, subnet := .nullv, ssidAP := .nullv, signal_strength := .nullv }
    light := { effect := .nullv, feature_light := .nullv, flame_brightness := 0
               flame_speed := 0, coal_brightness := 0, coal_speed := 0 }
    effects := { available_effects := .listv default_effects_base } }

/-- The state reached by `connect()` on `freshEv` with `bootResp`. -/
def connectedFresh : Evonic :=
  { session := some ⟨false⟩, close_session := false, client := some ⟨false⟩
    device := some dev0 }

/-- An enumeration of every field of the `Device` snapshot, with the
payload key that feeds it and a uniform (wire-value) read-out. -/
inductive DevField where
  | ipF | subnetF | netSsidF | dbmF
  | onF | ssdpF | infoSsidF | configsF | productF | buildDataF | lastPingF | modulesF
  | currentTempF | targetTempF | heatingF | fahrenheitF
  | effectF | featureLightF | flameBrightnessF | flameSpeedF | coalBrightnessF | coalSpeedF
  | availableEffectsF
deriving DecidableEq

/-- The payload key each snapshot field is merged from (note `"ssidAP"`
feeds both `Network.ssidAP` and `Info.ssidAP`). -/
def DevField.key : DevField → String
  | .ipF => ("ip")
  | .subnetF => ("subnet")
  | .netSsidF => ("ssidAP")
  | .dbmF => ("dbm")
  | .onF => ("Fire")
  | .ssdpF => ("SSDP")
  | .infoSsidF => ("ssidAP")
  | .configsF => ("configs")
  | .productF => ("product")
  | .buildDataF => ("buildData")
  | .lastPingF => ("time")
  | .modulesF => ("module")
  | .currentTempF => ("temperature")
  | .targetTempF => ("templevel")
  | .heatingF => ("Heater")
  | .fahrenheitF => ("fahrenheit")
  | .effectF => ("effect")
  | .featureLightF => ("pinout3")
  | .flameBrightnessF => ("brightnessRGB0")
  | .flameSpeedF => ("speedRGB0")
  | .coalBrightnessF => ("brightnessRGB1")
  | .coalSpeedF => ("speedRGB1")
  | .availableEffectsF => ("available_effects")

/-- Read a snapshot field as a wire value (integer fields are wrapped in
`JVal.intv`). -/
def DevField.read : DevField → Device → JVal
  | .ipF, d => d.network.ip
  | .subnetF, d => d.network.subnet
  | .netSsidF, d => d.network.ssidAP
  | .dbmF, d => d.network.signal_strength
  | .onF, d => d.info.on_
  | .ssdpF, d => d.info.ssdp
  | .infoSsidF, d => d.info.ssidAP
  | .configsF, d => d.info.configs
  | .productF, d => d.info.product
  | .buildDataF, d => d.info.buildData
  | .lastPingF, d => d.info.last_ping
  | .modulesF, d => d.info.modules
  | .currentTempF, d => .intv d.climate.current_temp
  | .targetTempF, d => .intv d.climate.target_temp
  | .heatingF, d => d.climate.heating
  | .fahrenheitF, d => d.climate.fahrenheit
  | .effectF, d => d.light.effect
  | .featureLightF, d => d.light.feature_light
  | .flameBrightnessF, d => .intv d.light.flame_brightness
  | .flameSpeedF, d => .intv d.light.flame_speed
  | .coalBrightnessF, d => .intv d.light.coal_brightness
  | .coalSpeedF, d => .intv d.light.coal_speed
  | .availableEffectsF, d => d.effects.available_effects

/-- What an integer-typed snapshot field must hold after CONSTRUCTION,
as a function of the wire value found under its key: absent, null, and
non-int non-string values store `0`; an int (or bool) stores its value;
a numeric string stores its parsed value. -/
def storedInt : Option JVal → Int → Prop
  | none, r => r = 0
  | some .nullv, r => r = 0
  | some (.boolv b), r => r = (if b then 1 else 0)
  | some (.intv n), r => r = n
  | some (.strv s), r => parsePyInt s = some r
  | some (.listv _), r => r = 0

/-- What an integer-typed snapshot field must hold after a MERGE: an
absent key preserves the current value, a present value is coerced as at
construction. -/
def storedIntMerge : Option JVal → Int → Int → Prop
  | none, old, r => r = old
  | some v, _, r => storedInt (some v) r


/-- C1: the spec says `set_temperature(19)` on a Celsius device whose
modules contain `"temperature"` succeeds and sends `templevel 19`, and
that 91 (Fahrenheit range violation) yields an out-of-range failure.  In
the code, once the module and type checks pass, the unit flag is read as
`self._device.info.fahrenheit` — a field `Info` does not have — so every
such call raises `AttributeError` instead: the command is never sent and
no range check is ever reached. -/
theorem set_temperature_reads_fahrenheit_from_info :
    Evonic.set_temperature evOpen (.intv 19) =
      .error (.attributeError ("Info object has no attribute fahrenheit")) ∧
    Evonic.set_temperature evOpen (.intv 91) =
      .error (.attributeError ("Info object has no attribute fahrenheit")) ∧
    Evonic.set_temperature evOpen (.strv ("19")) =
      .error (.evonicError ("temp must be an Integer")) := by
  refine ⟨by decide, by decide, by decide⟩

/-- C2: the spec says an integer outside `[0, 255]` is rejected as out of
range.  The code tests `brightness not in range(-1, 256)` (and likewise
for speed), so `-1` is accepted and sent on the wire. -/
theorem rgb_range_accepts_minus_one :
    Evonic.set_light_brightness evOpen ("rgb0") (.intv (-1)) =
      .ok (mkCmdEnvelope ("rgb set 0 - - -1 -")) ∧
    Evonic.set_animation_speed evOpen ("rgb0") (.intv (-1)) =
      .ok (mkCmdEnvelope ("rgb set 0 - -1 - -")) := by
  refine ⟨by decide, by decide⟩

/-- C3: the spec requires the numeric coercion helper to signal a decode
failure for any non-integer non-string input; the code returns `0` for
`None` and for any other non-int non-str value. -/
theorem to_int_zeroes_non_numeric_wire_values :
    to_int .nullv = .ok 0 ∧ to_int (.listv []) = .ok 0 := by
  exact ⟨rfl, rfl⟩

/-- C4: the spec says a non-JSON success body is returned as text without
raising, and a JSON success body is returned decoded.  Because the
`else: response_data = await response.text()` in the source is indented
under the bootstrap check instead of the content-type check, a non-JSON
success leaves `response_data` unassigned (`UnboundLocalError`), and a
JSON success on any non-bootstrap request returns the raw text instead
of the decoded body. -/
theorem request_success_body_mishandled :
    Evonic.request evSess ("/any") ("GET") none
      { status := 200, content_type := ("text/plain"), json_body := none, text_body := ("hello") } =
      .error (.unboundLocalError ("response_data")) ∧
    Evonic.request evSess ("/state") ("POST") none
      { status := 200, content_type := ("application/json")
        json_body := some [(("x"), .intv 1)], text_body := ("raw body text") } =
      .ok (.textData ("raw body text"), evSess) := by
  refine ⟨by decide, by decide⟩

/-- C5 counterexample: a raw-command operation invoked with no WebSocket
handle does not signal a precondition error — `__send_cmd` performs no
connection check, so the `None` handle surfaces as an unclassified
`AttributeError`. -/
theorem send_cmd_without_client_is_unclassified :
    Evonic.set_light_brightness evNoClient ("rgb0") (.intv 10) =
      .error (.attributeError ("NoneType object has no attribute send_str")) ∧
    PyErr.attributeError ("NoneType object has no attribute send_str") ≠
      PyErr.evonicError ("Not connected to a WLED WebSocket") := by
  refine ⟨by decide, by decide⟩

/-- C5 amended: `listen` raises `EvonicError` only when the handle is
absent (a handle in closed state makes the loop return normally without
any error); the voice-command operations raise a plain
`Exception("Connect first")` when the handle is absent; the raw-command
operations perform no connection check, so zone brightness and zone
speed fail with `AttributeError` from the `None` handle, and
`set_temperature` fails with `AttributeError` from its `info.fahrenheit`
read before it could ever reach the send. -/
theorem connection_precondition_checks_as_implemented :
    (∀ frames : List WsMsg,
      Evonic.listen freshEv frames =
        .raised (.evonicError ("Not connected to a WLED WebSocket"))) ∧
    (∀ (frames : List WsMsg) (dev : Option Device),
      Evonic.listen { session := none, close_session := false
                      client := some ⟨true⟩, device := dev } frames = .finished dev) ∧
    (∀ cmd : String,
      Evonic.send_voice freshEv cmd = .error (.pyException ("Connect first"))) ∧
    Evonic.light_power evNoClient ("on") = .error (.pyException ("Connect first")) ∧
    Evonic.set_effect { evNoClient with device := some devFix } ("Vero") =
      .error (.pyException ("Connect first")) ∧
    Evonic.set_light_brightness evNoClient ("rgb0") (.intv 10) =
      .error (.attributeError ("NoneType object has no attribute send_str")) ∧
    Evonic.set_animation_speed evNoClient ("rgb0") (.intv 10) =
      .error (.attributeError ("NoneType object has no attribute send_str")) ∧
    Evonic.set_temperature evNoClient (.intv 19) =
      .error (.attributeError ("Info object has no attribute fahrenheit")) := by
  refine ⟨?_, ?_, ?_, by decide, by decide, by decide, by decide, by decide⟩
  · intro frames
    rfl
  · intro frames dev
    cases frames <;> rfl
  · intro cmd
    rfl

/-- C6: the spec says a session the manager creates itself — including
one created during `connect()` — is released by `close()`.  `connect()`
creates the session without setting `_close_session`, so `close()` after
a fresh `connect()` leaves that session open (while still being
idempotent). -/
theorem close_leaks_connect_created_session :
    Evonic.connect freshEv bootResp = .ok connectedFresh ∧
    connectedFresh.close_session = false ∧
    (Evonic.close connectedFresh).session = some ⟨false⟩ ∧
    Evonic.close (Evonic.close connectedFresh) = Evonic.close connectedFresh := by
  refine ⟨by decide, rfl, by decide, by decide⟩

/-- Every model code mentioned by any family rule. -/
def all_family_configs : List String :=
  eos_configs ++ ilusion_configs ++ evoflame_configs ++ slimline_configs ++ video_configs

/-- C7: the effects catalog is a pure function of the configuration code;
because the five family sets are pairwise disjoint (and none of the
evoflame codes is `"1800"`), the sequential rebinding in the source
agrees with the spec's first-matching-rule-wins reading for every input;
and for `configs = "v630"` the catalog is exactly `"Eos"` followed by the
13 default effects in order. -/
theorem available_effects_first_match_and_v630 :
    (∀ c : JVal, available_effects_of c = specEffectsCatalog c) ∧
    available_effects_of (.strv ("v630")) =
      [("Eos"), ("Vero"), ("Ignite"), ("Breathe"), ("Spectrum"), ("Embers"), ("Odyssey"),
       ("Aurora"), ("Red"), ("Orange"), ("Green"), ("Blue"), ("Violet"), ("White")] := by
  constructor
  · intro c
    cases c with
    | nullv => rfl
    | boolv b => rfl
    | intv n => rfl
    | listv xs => rfl
    | strv s =>
      by_cases h : s ∈ all_family_configs
      · unfold all_family_configs at h
        fin_cases h <;> rfl
      · unfold all_family_configs at h
        simp only [List.mem_append, not_or] at h
        obtain ⟨⟨⟨⟨h1, h2⟩, h3⟩, h4⟩, h5⟩ := h
        simp [available_effects_of, specEffectsCatalog, pyInStrList, h1, h2, h3, h4, h5]
  · rfl

lemma climate_update_parts (c : Climate) (p : Payload) (c' : Climate)
    (h : Climate.update_from_dict c p = .ok c') :
    to_int (dictGetD p ("temperature") (.intv c.current_temp)) = .ok c'.current_temp ∧
    to_int (dictGetD p ("templevel") (.intv c.target_temp)) = .ok c'.target_temp ∧
    c'.heating = dictGetD p ("Heater") c.heating ∧
    c'.fahrenheit = dictGetD p ("fahrenheit") c.fahrenheit := by
  unfold Climate.update_from_dict at h
  cases h1 : to_int (dictGetD p ("temperature") (.intv c.current_temp)) with
  | error e => simp [h1, Bind.bind, Except.bind] at h
  | ok a =>
    cases h2 : to_int (dictGetD p ("templevel") (.intv c.target_temp)) with
    | error e => simp [h1, h2, Bind.bind, Except.bind] at h
    | ok b =>
      simp [h1, h2, Bind.bind, Except.bind, pure, Except.pure] at h
      subst h
      exact ⟨rfl, rfl, rfl, rfl⟩

lemma climate_from_parts (p : Payload) (c : Climate)
    (h : Climate.from_dict p = .ok c) :
    to_int (dictGetD p ("temperature") .nullv) = .ok c.current_temp ∧
    to_int (dictGetD p ("templevel") .nullv) = .ok c.target_temp ∧
    c.heating = dictGetD p ("Heater") .nullv ∧
    c.fahrenheit = dictGetD p ("fahrenheit") .nullv := by
  unfold Climate.from_dict at h
  cases h1 : to_int (dictGetD p ("temperature") .nullv) with
  | error e => simp [h1, Bind.bind, Except.bind] at h
  | ok a =>
    cases h2 : to_int (dictGetD p ("templevel") .nullv) with
    | error e => simp [h1, h2, Bind.bind, Except.bind] at h
    | ok b =>
      simp [h1, h2, Bind.bind, Except.bind, pure, Except.pure] at h
      subst h
      exact ⟨rfl, rfl, rfl, rfl⟩

lemma light_update_parts (l : Light) (p : Payload) (l' : Light)
    (h : Light.update_from_dict l p = .ok l') :
    to_int (dictGetD p ("brightnessRGB0") (.intv l.flame_brightness)) = .ok l'.flame_brightness ∧
    to_int (dictGetD p ("speedRGB0") (.intv l.flame_speed)) = .ok l'.flame_speed ∧
    to_int (dictGetD p ("brightnessRGB1") (.intv l.coal_brightness)) = .ok l'.coal_brightness ∧
    to_int (dictGetD p ("speedRGB1") (.intv l.coal_speed)) = .ok l'.coal_speed ∧
    l'.effect = dictGetD p ("effect") l.effect ∧
    l'.feature_light = dictGetD p ("pinout3") l.feature_light := by
  unfold Light.update_from_dict at h
  cases h1 : to_int (dictGetD p ("brightnessRGB0") (.intv l.flame_brightness)) with
  | error e => simp [h1, Bind.bind, Except.bind] at h
  | ok a =>
    cases h2 : to_int (dictGetD p ("speedRGB0") (.intv l.flame_speed)) with
    | error e => simp [h1, h2, Bind.bind, Except.bind] at h
    | ok b =>
      cases h3 : to_int (dictGetD p ("brightnessRGB1") (.intv l.coal_brightness)) with
      | error e => simp [h1, h2, h3, Bind.bind, Except.bind] at h
      | ok u =>
        cases h4 : to_int (dictGetD p ("speedRGB1") (.intv l.coal_speed)) with
        | error e => simp [h1, h2, h3, h4, Bind.bind, Except.bind] at h
        | ok v =>
          simp [h1, h2, h3, h4, Bind.bind, Except.bind, pure, Except.pure] at h
          subst h
          exact ⟨rfl, rfl, rfl, rfl, rfl, rfl⟩

lemma light_from_parts (p : Payload) (l : Light)
    (h : Light.from_dict p = .ok l) :
    to_int (dictGetD p ("brightnessRGB0") .nullv) = .ok l.flame_brightness ∧
    to_int (dictGetD p ("speedRGB0") .nullv) = .ok l.flame_speed ∧
    to_int (dictGetD p ("brightnessRGB1") .nullv) = .ok l.coal_brightness ∧
    to_int (dictGetD p ("speedRGB1") .nullv) = .ok l.coal_speed := by
  unfold Light.from_dict at h
  cases h1 : to_int (dictGetD p ("brightnessRGB0") .nullv) with
  | error e => simp [h1, Bind.bind, Except.bind] at h
  | ok a =>
    cases h2 : to_int (dictGetD p ("speedRGB0") .nullv) with
    | error e => simp [h1, h2, Bind.bind, Except.bind] at h
    | ok b =>
      cases h3 : to_int (dictGetD p ("brightnessRGB1") .nullv) with
      | error e => simp [h1, h2, h3, Bind.bind, Except.bind] at h
      | ok u =>
        cases h4 : to_int (dictGetD p ("speedRGB1") .nullv) with
        | error e => simp [h1, h2, h3, h4, Bind.bind, Except.bind] at h
        | ok v =>
          simp [h1, h2, h3, h4, Bind.bind, Except.bind, pure, Except.pure] at h
          subst h
          exact ⟨rfl, rfl, rfl, rfl⟩

lemma device_update_parts (d : Device) (p : Payload) (d' : Device)
    (h : d.update_from_dict p = .ok d') :
    d'.info = d.info.update_from_dict p ∧
    Climate.update_from_dict d.climate p = .ok d'.climate ∧
    d'.network = d.network.update_from_dict p ∧
    Light.update_from_dict d.light p = .ok d'.light ∧
    d'.effects = d.effects.update_from_dict p := by
  unfold Device.update_from_dict at h
  cases hc : Climate.update_from_dict d.climate p with
  | error e => simp [hc, Bind.bind, Except.bind] at h
  | ok c =>
    cases hl : Light.update_from_dict d.light p with
    | error e => simp [hc, hl, Bind.bind, Except.bind] at h
    | ok l =>
      simp [hc, hl, Bind.bind, Except.bind, pure, Except.pure] at h
      subst h
      exact ⟨rfl, rfl, rfl, rfl, rfl⟩

/-- C8: a successful merge overwrites exactly the fields whose keys
appear in the payload: every field whose key is absent is preserved
verbatim (including the integer fields, whose `to_int` round-trips the
current integer value), and merging an ip-only payload — whether the ip
is a string or an explicit null — changes `network.ip` alone. -/
theorem merge_overwrites_exactly_present_keys :
    (∀ (d d' : Device) (p : Payload) (f : DevField),
        d.update_from_dict p = .ok d' → p.lookup (DevField.key f) = none →
        DevField.read f d' = DevField.read f d) ∧
    (∀ d : Device,
        d.update_from_dict [(("ip"), JVal.strv ("1.2.3.4"))] =
          .ok { d with network := { d.network with ip := JVal.strv ("1.2.3.4") } }) ∧
    (∀ d : Device,
        d.update_from_dict [(("ip"), JVal.nullv)] =
          .ok { d with network := { d.network with ip := JVal.nullv } }) := by
  refine ⟨?_, ?_, ?_⟩
  · intro d d' p f h hk
    obtain ⟨hi, hc, hn, hl, he⟩ := device_update_parts d p d' h
    obtain ⟨c1, c2, c3, c4⟩ := climate_update_parts _ _ _ hc
    obtain ⟨l1, l2, l3, l4, l5, l6⟩ := light_update_parts _ _ _ hl
    cases f
    case ipF => simp only [DevField.key] at hk; simp only [DevField.read, hn]
                simp [Network.update_from_dict, dictGetD, hk]
    case subnetF => simp only [DevField.key] at hk; simp only [DevField.read, hn]
                    simp [Network.update_from_dict, dictGetD, hk]
    case netSsidF => simp only [DevField.key] at hk; simp only [DevField.read, hn]
                     simp [Network.update_from_dict, dictGetD, hk]
    case dbmF => simp only [DevField.key] at hk; simp only [DevField.read, hn]
                 simp [Network.update_from_dict, dictGetD, hk]
    case onF => simp only [DevField.key] at hk; simp only [DevField.read, hi]
                simp [Info.update_from_dict, dictGetD, hk]
    case ssdpF => simp only [DevField.key] at hk; simp only [DevField.read, hi]
                  simp [Info.update_from_dict, dictGetD, hk]
    case infoSsidF => simp only [DevField.key] at hk; simp only [DevField.read, hi]
                      simp [Info.update_from_dict, dictGetD, hk]
    case configsF => simp only [DevField.key] at hk; simp only [DevField.read, hi]
                     simp [Info.update_from_dict, dictGetD, hk]
    case productF => simp only [DevField.key] at hk; simp only [DevField.read, hi]
                     simp [Info.update_from_dict, dictGetD, hk]
    case buildDataF => simp only [DevField.key] at hk; simp only [DevField.read, hi]
                       simp [Info.update_from_dict, dictGetD, hk]
    case lastPingF => simp only [DevField.key] at hk; simp only [DevField.read, hi]
                      simp [Info.update_from_dict, dictGetD, hk]
    case modulesF => simp only [DevField.key] at hk; simp only [DevField.read, hi]
                     simp [Info.update_from_dict, dictGetD, hk]
    case currentTempF => simp only [DevField.key] at hk; simp only [DevField.read]
                         simp [dictGetD, hk, to_int] at c1; simp [c1]
    case targetTempF => simp only [DevField.key] at hk; simp only [DevField.read]
                        simp [dictGetD, hk, to_int] at c2; simp [c2]
    case heatingF => simp only [DevField.key] at hk; simp only [DevField.read, c3]
                     simp [dictGetD, hk]
    case fahrenheitF => simp only [DevField.key] at hk; simp only [DevField.read, c4]
                        simp [dictGetD, hk]
    case effectF => simp only [DevField.key] at hk; simp only [DevField.read, l5]
                    simp [dictGetD, hk]
    case featureLightF => simp only [DevField.key] at hk; simp only [DevField.read, l6]
                          simp [dictGetD, hk]
    case flameBrightnessF => simp only [DevField.key] at hk; simp only [DevField.read]
                             simp [dictGetD, hk, to_int] at l1; simp [l1]
    case flameSpeedF => simp only [DevField.key] at hk; simp only [DevField.read]
                        simp [dictGetD, hk, to_int] at l2; simp [l2]
    case coalBrightnessF => simp only [DevField.key] at hk; simp only [DevField.read]
                            simp [dictGetD, hk, to_int] at l3; simp [l3]
    case coalSpeedF => simp only [DevField.key] at hk; simp only [DevField.read]
                       simp [dictGetD, hk, to_int] at l4; simp [l4]
    case availableEffectsF => simp only [DevField.key] at hk; simp only [DevField.read, he]
                              simp [Effects.update_from_dict, dictGetD, hk]
  · intro d
    rfl
  · intro d
    rfl

/-- Witness for C8: merging the ip-only payload into the concrete device
fixture preserves the subnet field. -/
theorem merge_overwrites_witness :
    DevField.read .subnetF
      { devFix with network := { devFix.network with ip := JVal.strv ("1.2.3.4") } } =
      DevField.read .subnetF devFix :=
  merge_overwrites_exactly_present_keys.1 devFix
    { devFix with network := { devFix.network with ip := JVal.strv ("1.2.3.4") } }
    [(("ip"), JVal.strv ("1.2.3.4"))] .subnetF (by decide) (by decide)

lemma to_int_ok_storedInt (v : JVal) (r : Int) (h : to_int v = .ok r) :
    storedInt (some v) r := by
  cases v with
  | nullv => simp [to_int] at h; simp [storedInt, h]
  | boolv b => simp [to_int] at h; simp [storedInt, h]
  | intv n => simp [to_int] at h; simp [storedInt, h]
  | listv xs => simp [to_int] at h; simp [storedInt, h]
  | strv s =>
    simp only [to_int, pyIntOfString] at h
    cases hp : parsePyInt s with
    | none => rw [hp] at h; simp at h
    | some n => rw [hp] at h; simp at h; simp [storedInt, hp, h]

/-- C10: the six numeric snapshot fields always hold integers — they are
produced by `to_int` at both construction and merge.  At construction an
absent key, a null, or a non-int non-string wire value stores `0`, an
integer (or bool) stores its value, and a numeric string stores its
parsed value; at merge an absent key preserves the current integer and a
present value is coerced the same way. -/
theorem numeric_fields_hold_integers :
    (∀ (p : Payload) (c : Climate), Climate.from_dict p = .ok c →
      storedInt (p.lookup ("temperature")) c.current_temp ∧
      storedInt (p.lookup ("templevel")) c.target_temp) ∧
    (∀ (p : Payload) (l : Light), Light.from_dict p = .ok l →
      storedInt (p.lookup ("brightnessRGB0")) l.flame_brightness ∧
      storedInt (p.lookup ("speedRGB0")) l.flame_speed ∧
      storedInt (p.lookup ("brightnessRGB1")) l.coal_brightness ∧
      storedInt (p.lookup ("speedRGB1")) l.coal_speed) ∧
    (∀ (p : Payload) (c c' : Climate), Climate.update_from_dict c p = .ok c' →
      storedIntMerge (p.lookup ("temperature")) c.current_temp c'.current_temp ∧
      storedIntMerge (p.lookup ("templevel")) c.target_temp c'.target_temp) ∧
    (∀ (p : Payload) (l l' : Light), Light.update_from_dict l p = .ok l' →
      storedIntMerge (p.lookup ("brightnessRGB0")) l.flame_brightness l'.flame_brightness ∧
      storedIntMerge (p.lookup ("speedRGB0")) l.flame_speed l'.flame_speed ∧
      storedIntMerge (p.lookup ("brightnessRGB1")) l.coal_brightness l'.coal_brightness ∧
      storedIntMerge (p.lookup ("speedRGB1")) l.coal_speed l'.coal_speed) := by
  have fromInt : ∀ (p : Payload) (k : String) (r : Int),
      to_int (dictGetD p k .nullv) = .ok r → storedInt (p.lookup k) r := by
    intro p k r h
    cases hv : p.lookup k with
    | none => simp [dictGetD, hv, to_int] at h; simp [storedInt, h]
    | some v =>
      simp only [dictGetD, hv] at h
      exact to_int_ok_storedInt v r h
  have mergeInt : ∀ (p : Payload) (k : String) (old r : Int),
      to_int (dictGetD p k (.intv old)) = .ok r → storedIntMerge (p.lookup k) old r := by
    intro p k old r h
    cases hv : p.lookup k with
    | none => simp [dictGetD, hv, to_int] at h; simp [storedIntMerge, h]
    | some v =>
      simp only [dictGetD, hv] at h
      simpa [storedIntMerge] using to_int_ok_storedInt v r h
  refine ⟨?_, ?_, ?_, ?_⟩
  · intro p c h
    obtain ⟨h1, h2, -, -⟩ := climate_from_parts p c h
    exact ⟨fromInt p ("temperature") _ h1, fromInt p ("templevel") _ h2⟩
  · intro p l h
    obtain ⟨h1, h2, h3, h4⟩ := light_from_parts p l h
    exact ⟨fromInt p ("brightnessRGB0") _ h1, fromInt p ("speedRGB0") _ h2,
           fromInt p ("brightnessRGB1") _ h3, fromInt p ("speedRGB1") _ h4⟩
  · intro p c c' h
    obtain ⟨h1, h2, -, -⟩ := climate_update_parts c p c' h
    exact ⟨mergeInt p ("temperature") _ _ h1, mergeInt p ("templevel") _ _ h2⟩
  · intro p l l' h
    obtain ⟨h1, h2, h3, h4, -, -⟩ := light_update_parts l p l' h
    exact ⟨mergeInt p ("brightnessRGB0") _ _ h1, mergeInt p ("speedRGB0") _ _ h2,
           mergeInt p ("brightnessRGB1") _ _ h3, mergeInt p ("speedRGB1") _ _ h4⟩

/-- Witness for C10: constructing a climate record from a payload with a
null temperature and a string templevel stores `0` and the parsed `19`. -/
theorem numeric_fields_hold_integers_witness :
    storedInt (([(("temperature"), JVal.nullv), (("templevel"), JVal.strv ("19"))] : Payload).lookup ("temperature")) 0 ∧
    storedInt (([(("temperature"), JVal.nullv), (("templevel"), JVal.strv ("19"))] : Payload).lookup ("templevel")) 19 :=
  numeric_fields_hold_integers.1
    [(("temperature"), JVal.nullv), (("templevel"), JVal.strv ("19"))]
    { current_temp := 0, target_temp := 19, heating := .nullv, fahrenheit := .nullv }
    (by decide)

lemma to_int_error_shape (v : JVal) (e : PyErr) (h : to_int v = .error e) :
    ∃ m, e = .valueError m := by
  cases v with
  | nullv => simp [to_int] at h
  | boolv b => simp [to_int] at h
  | intv n => simp [to_int] at h
  | listv xs => simp [to_int] at h
  | strv s =>
    simp only [to_int, pyIntOfString] at h
    cases hp : parsePyInt s with
    | some n => rw [hp] at h; simp at h
    | none =>
      rw [hp] at h
      simp at h
      exact ⟨s, h.symm⟩

lemma climate_from_dict_error (p : Payload) (e : PyErr)
    (h : Climate.from_dict p = .error e) : ∃ m, e = .valueError m := by
  unfold Climate.from_dict at h
  cases h1 : to_int (dictGetD p ("temperature") .nullv) with
  | error e1 =>
    simp [h1, Bind.bind, Except.bind] at h
    exact h ▸ to_int_error_shape _ _ h1
  | ok a =>
    cases h2 : to_int (dictGetD p ("templevel") .nullv) with
    | error e2 =>
      simp [h1, h2, Bind.bind, Except.bind] at h
      exact h ▸ to_int_error_shape _ _ h2
    | ok b => simp [h1, h2, Bind.bind, Except.bind, pure, Except.pure] at h

lemma climate_update_error (c : Climate) (p : Payload) (e : PyErr)
    (h : Climate.update_from_dict c p = .error e) : ∃ m, e = .valueError m := by
  unfold Climate.update_from_dict at h
  cases h1 : to_int (dictGetD p ("temperature") (.intv c.current_temp)) with
  | error e1 =>
    simp [h1, Bind.bind, Except.bind] at h
    exact h ▸ to_int_error_shape _ _ h1
  | ok a =>
    cases h2 : to_int (dictGetD p ("templevel") (.intv c.target_temp)) with
    | error e2 =>
      simp [h1, h2, Bind.bind, Except.bind] at h
      exact h ▸ to_int_error_shape _ _ h2
    | ok b => simp [h1, h2, Bind.bind, Except.bind, pure, Except.pure] at h

lemma light_from_dict_error (p : Payload) (e : PyErr)
    (h : Light.from_dict p = .error e) : ∃ m, e = .valueError m := by
  unfold Light.from_dict at h
  cases h1 : to_int (dictGetD p ("brightnessRGB0") .nullv) with
  | error e1 =>
    simp [h1, Bind.bind, Except.bind] at h
    exact h ▸ to_int_error_shape _ _ h1
  | ok a =>
    cases h2 : to_int (dictGetD p ("speedRGB0") .nullv) with
    | error e2 =>
      simp [h1, h2, Bind.bind, Except.bind] at h
      exact h ▸ to_int_error_shape _ _ h2
    | ok b =>
      cases h3 : to_int (dictGetD p ("brightnessRGB1") .nullv) with
      | error e3 =>
        simp [h1, h2, h3, Bind.bind, Except.bind] at h
        exact h ▸ to_int_error_shape _ _ h3
      | ok u =>
        cases h4 : to_int (dictGetD p ("speedRGB1") .nullv) with
        | error e4 =>
          simp [h1, h2, h3, h4, Bind.bind, Except.bind] at h
          exact h ▸ to_int_error_shape _ _ h4
        | ok v => simp [h1, h2, h3, h4, Bind.bind, Except.bind, pure, Except.pure] at h

lemma light_update_error (l : Light) (p : Payload) (e : PyErr)
    (h : Light.update_from_dict l p = .error e) : ∃ m, e = .valueError m := by
  unfold Light.update_from_dict at h
  cases h1 : to_int (dictGetD p ("brightnessRGB0") (.intv l.flame_brightness)) with
  | error e1 =>
    simp [h1, Bind.bind, Except.bind] at h
    exact h ▸ to_int_error_shape _ _ h1
  | ok a =>
    cases h2 : to_int (dictGetD p ("speedRGB0") (.intv l.flame_speed)) with
    | error e2 =>
      simp [h1, h2, Bind.bind, Except.bind] at h
      exact h ▸ to_int_error_shape _ _ h2
    | ok b =>
      cases h3 : to_int (dictGetD p ("brightnessRGB1") (.intv l.coal_brightness)) with
      | error e3 =>
        simp [h1, h2, h3, Bind.bind, Except.bind] at h
        exact h ▸ to_int_error_shape _ _ h3
      | ok u =>
        cases h4 : to_int (dictGetD p ("speedRGB1") (.intv l.coal_speed)) with
        | error e4 =>
          simp [h1, h2, h3, h4, Bind.bind, Except.bind] at h
          exact h ▸ to_int_error_shape _ _ h4
        | ok v => simp [h1, h2, h3, h4, Bind.bind, Except.bind, pure, Except.pure] at h

lemma device_fromPayload_error (p : Payload) (e : PyErr)
    (h : Device.fromPayload p = .error e) : ∃ m, e = .valueError m := by
  unfold Device.fromPayload at h
  cases hc : Climate.from_dict p with
  | error e1 =>
    simp [hc, Bind.bind, Except.bind] at h
    exact h ▸ climate_from_dict_error _ _ hc
  | ok c =>
    cases hl : Light.from_dict p with
    | error e2 =>
      simp [hc, hl, Bind.bind, Except.bind] at h
      exact h ▸ light_from_dict_error _ _ hl
    | ok l => simp [hc, hl, Bind.bind, Except.bind, pure, Except.pure] at h

lemma device_update_error (d : Device) (p : Payload) (e : PyErr)
    (h : d.update_from_dict p = .error e) : ∃ m, e = .valueError m := by
  unfold Device.update_from_dict at h
  cases hc : Climate.update_from_dict d.climate p with
  | error e1 =>
    simp [hc, Bind.bind, Except.bind] at h
    exact h ▸ climate_update_error _ _ _ hc
  | ok c =>
    cases hl : Light.update_from_dict d.light p with
    | error e2 =>
      simp [hc, hl, Bind.bind, Except.bind] at h
      exact h ▸ light_update_error _ _ _ hl
    | ok l => simp [hc, hl, Bind.bind, Except.bind, pure, Except.pure] at h

lemma deviceStep_error (dev : Option Device) (body : Payload) (e : PyErr)
    (h : deviceStep dev body = .error e) : ∃ m, e = .valueError m := by
  cases dev with
  | none =>
    unfold deviceStep at h
    cases hf : Device.fromPayload body with
    | error e1 =>
      rw [hf] at h
      simp at h
      exact h ▸ device_fromPayload_error _ _ hf
    | ok d0 =>
      rw [hf] at h
      exact device_update_error _ _ _ h
  | some d =>
    exact device_update_error _ _ _ h

/-- C9 counterexample: the loop can also exit by raising an exception
that is neither a connection error nor a connection-closed error — a
text frame whose payload maps `temperature` to a non-numeric string
makes the snapshot merge raise `ValueError`, which propagates out of the
loop. -/
theorem listen_text_frame_raises_value_error :
    Evonic.listen
      { session := none, close_session := false, client := some ⟨false⟩, device := none }
      [.textMsg [(("temperature"), JVal.strv ("abc"))]] =
      .raised (.valueError ("abc")) := by
  decide

/-- C9 amended: while the socket stays open, the receive loop never
returns normally — on every finite frame trace it is either still
awaiting frames or has raised; an error frame raises the connection
error, a close/closed/closing frame raises the connection-closed error,
and the only other possible exit is a `ValueError` propagated from
merging a malformed text payload. -/
theorem listen_loop_never_returns_while_open :
    (∀ (frames : List WsMsg) (dev : Option Device),
      (∃ d, listen_loop ⟨false⟩ dev frames = .awaitingFrames d) ∨
      listen_loop ⟨false⟩ dev frames =
        .raised (.evonicConnectionError ("websocket exception")) ∨
      listen_loop ⟨false⟩ dev frames =
        .raised (.evonicConnectionClosed ("Connection to the WLED WebSocket has been closed")) ∨
      (∃ m, listen_loop ⟨false⟩ dev frames = .raised (.valueError m))) ∧
    (∀ (rest : List WsMsg) (dev : Option Device),
      listen_loop ⟨false⟩ dev (.errorMsg :: rest) =
        .raised (.evonicConnectionError ("websocket exception"))) ∧
    (∀ (rest : List WsMsg) (dev : Option Device),
      listen_loop ⟨false⟩ dev (.closeMsg :: rest) =
        .raised (.evonicConnectionClosed ("Connection to the WLED WebSocket has been closed")) ∧
      listen_loop ⟨false⟩ dev (.closedMsg :: rest) =
        .raised (.evonicConnectionClosed ("Connection to the WLED WebSocket has been closed")) ∧
      listen_loop ⟨false⟩ dev (.closingMsg :: rest) =
        .raised (.evonicConnectionClosed ("Connection to the WLED WebSocket has been closed"))) := by
  refine ⟨?_, ?_, ?_⟩
  · intro frames
    induction frames with
    | nil =>
      intro dev
      exact Or.inl ⟨dev, rfl⟩
    | cons m rest ih =>
      intro dev
      cases m with
      | errorMsg => exact Or.inr (Or.inl rfl)
      | closeMsg => exact Or.inr (Or.inr (Or.inl rfl))
      | closedMsg => exact Or.inr (Or.inr (Or.inl rfl))
      | closingMsg => exact Or.inr (Or.inr (Or.inl rfl))
      | binaryMsg => exact ih dev
      | pingMsg => exact ih dev
      | pongMsg => exact ih dev
      | textMsg body =>
        cases hs : deviceStep dev body with
        | error err =>
          obtain ⟨m, rfl⟩ := deviceStep_error _ _ _ hs
          refine Or.inr (Or.inr (Or.inr ⟨m, ?_⟩))
          simp [listen_loop, hs]
        | ok d1 =>
          have h := ih (some d1)
          simpa [listen_loop, hs] using h
  · intro rest dev
    rfl
  · intro rest dev
    exact ⟨rfl, rfl, rfl⟩
